import Mathlib

/-!
Shallow embedding of the novaclient authentication / request-dispatch layer
(`novaclient/client.py`, class `HTTPClient`) together with the pieces of its
collaborators that the verified properties need.

Conventions:
* Python strings are Lean `String`s; a Python value that may be `None` is an
  `Option`; Python truthiness of such values (`if x:`) is `truthyS`.
* The HTTP transport is modelled as a script `Nat → Response`: the n-th
  network call made by the dispatcher receives `script n`.  A `World` carries
  the client state, the script, the number of calls made so far and the trace
  of requests actually sent, so that "zero network calls" and "the request
  sent carried header H" are directly observable.
* `json.loads` / `json.dumps` are external library functions; they are
  modelled as explicit function parameters (`decode` in `World`).
* Machine-level details (actual sockets, TLS) are outside the model; the
  dispatcher logic that decides what to send and how to classify responses
  is translated statement by statement from the source.
-/

set_option autoImplicit false

namespace Nova

/-! ## Basic string helpers (List Char based, executable) -/

/-- Python truthiness of an optional string: `None` and `""` are falsy. -/
def truthyS : Option String → Bool
  | none => false
  | some s => s ≠ ""

/-- `s.rstrip('/')`: drop trailing `/` characters. -/
def rstripSlash (s : String) : String :=
  String.mk (((s.data.reverse).dropWhile (fun c => c == '/')).reverse)

/-- Is `pat` a leading segment of `l`? -/
def isPreList : List Char → List Char → Bool
  | [], _ => true
  | _ :: _, [] => false
  | a :: as, b :: bs => a == b && isPreList as bs

/-- Does `l` contain `pat` as a contiguous sublist? (Python `pat in s`.) -/
def hasSubList (pat : List Char) : List Char → Bool
  | [] => isPreList pat []
  | c :: rest => isPreList pat (c :: rest) || hasSubList pat rest

/-- Python `pat in s` on strings. -/
def hasSubstr (s pat : String) : Bool := hasSubList pat.data s.data

/-- Assoc-list lookup (Python `d[k]` / `k in d`). -/
def lookupKV {α : Type} (kvs : List (String × α)) (k : String) : Option α :=
  (kvs.find? (fun p => p.1 == k)).map (·.2)

/-- Assoc-list update: replace the binding if present, else append
(Python `d[k] = v` keeps insertion order and overwrites in place). -/
def setKV {α : Type} (kvs : List (String × α)) (k : String) (v : α) :
    List (String × α) :=
  if (kvs.find? (fun p => p.1 == k)).isSome then
    kvs.map (fun p => if p.1 == k then (k, v) else p)
  else
    kvs ++ [(k, v)]

/-! ## JSON values -/

/-- JSON values, the shape `json.loads` produces. -/
inductive Json where
  | null : Json
  | bool (b : Bool) : Json
  | num (n : Int) : Json
  | str (s : String) : Json
  | arr (xs : List Json) : Json
  | obj (kvs : List (String × Json)) : Json

/-- `d[k]` for JSON objects, `none` when absent or not an object. -/
def jLookup (j : Json) (k : String) : Option Json :=
  match j with
  | .obj kvs => lookupKV kvs k
  | _ => none

/-- `k in d` for a JSON object body. -/
def bodyHasKey (body : Option Json) (k : String) : Bool :=
  match body with
  | some (.obj kvs) => kvs.any (fun p => p.1 == k)
  | _ => false

/-! ## HTTP responses and the error taxonomy -/

/-- An HTTP response as seen by the client: status code, headers, raw body
text.  Response headers are plain strings. -/
structure Response where
  status : Nat
  headers : List (String × String)
  text : String
  deriving DecidableEq, Repr

/-- The payload every table-driven HTTP error carries: status code, message
extracted from the body, request URL and method
(spec §4.1 / §7: "each carries the status code, a human-readable message
extracted from the body when present, the request method, and the URL"). -/
structure ErrInfo where
  code : Nat
  message : String
  url : String
  method : String
  deriving DecidableEq, Repr

/-- The typed errors of the dispatcher.  One constructor per error kind of
spec §4.1/§7; `pyError` stands for an uncaught Python runtime error
(KeyError/TypeError/AttributeError escaping the modelled code), and
`fuelOut` is a modelling artifact marking exhaustion of the fuel that bounds
the redirect-following loops (the Python loops are unbounded). -/
inductive NovaError where
  | badRequest (i : ErrInfo)
  | unauthorized (i : ErrInfo)
  | forbidden (i : ErrInfo)
  | notFound (i : ErrInfo)
  | conflict (i : ErrInfo)
  | overLimit (i : ErrInfo)
  | requestEntityTooLarge (i : ErrInfo)
  | unprocessableEntity (i : ErrInfo)
  | serverError (i : ErrInfo)
  | clientException (i : ErrInfo)
  | connectionRefused (text : String)
  | authorizationFailure (msg : String)
  | endpointNotFound
  | ambiguousEndpoints
  | noTokenLookup
  | authSystemNotFound (system : String)
  | unsupportedVersion
  | pyError (kind : String)
  | fuelOut
  deriving DecidableEq, Repr

/-- Is this the `Unauthorized` error kind (`exceptions.Unauthorized`)?  The
401 table entry and the explicit `Unauthorized('Nova Client')` raise in
`authenticate` are both of this kind. -/
def NovaError.isUnauthorized : NovaError → Bool
  | .unauthorized _ => true
  | _ => false

/-- Modelled from the spec: `novaclient/exceptions.py` (function
`from_response`) is not under `src/`; this is the status-to-kind table of
spec §4.1: 400→BadRequest, 401→Unauthorized, 403→Forbidden, 404→NotFound,
409→Conflict, 413→OverLimit or RequestEntityTooLarge disambiguated by an
"overLimit" key in the body, 422→UnprocessableEntity, 429 treated as
OverLimit, 5xx→server error kinds keyed by code, unrecognized codes →
ClientException carrying the raw code.  The message is extracted from the
body when present. -/
def from_response (resp : Response) (body : Option Json) (url method : String) :
    NovaError :=
  let msg : String :=
    match body with
    | some (.obj ((_, .obj kvs) :: _)) =>
      match lookupKV kvs "message" with
      | some (.str s) => s
      | _ => ""
    | _ => ""
  let i : ErrInfo := ⟨resp.status, msg, url, method⟩
  match resp.status with
  | 400 => .badRequest i
  | 401 => .unauthorized i
  | 403 => .forbidden i
  | 404 => .notFound i
  | 409 => .conflict i
  | 413 => if bodyHasKey body "overLimit" then .overLimit i
           else .requestEntityTooLarge i
  | 422 => .unprocessableEntity i
  | 429 => .overLimit i
  | c => if 500 ≤ c then .serverError i else .clientException i

/-- The response-classification logic of `HTTPClient.request`
(client.py lines 377-398): for a non-empty body, a status of exactly 400
whose text contains "Connection refused" or "actively refused" raises
`ConnectionRefused`; otherwise the body is JSON-decoded (decode failure
degrades to a null body); any status ≥ 400 raises the table-driven typed
error; otherwise the response and parsed body are returned.
`decode` models the external `json.loads` (returning `none` on a
`ValueError`). -/
def classifyResponse (decode : String → Option Json) (resp : Response)
    (url method : String) : Except NovaError (Response × Option Json) :=
  if resp.text ≠ "" then
    if resp.status = 400 &&
        (hasSubstr resp.text "Connection refused" ||
         hasSubstr resp.text "actively refused") then
      .error (.connectionRefused resp.text)
    else
      let body := decode resp.text
      if 400 ≤ resp.status then .error (from_response resp body url method)
      else .ok (resp, body)
  else
    if 400 ≤ resp.status then .error (from_response resp none url method)
    else .ok (resp, none)

/-! ## SHA-1 (the `hashlib.sha1(...).hexdigest()` used for redaction)

Words are `Nat`s reduced mod 2^32 wherever overflow matters. -/

/-- Reduce to a 32-bit word. -/
def w32 (x : Nat) : Nat := x % 4294967296

/-- Left-rotate a 32-bit word by `n` (for `x < 2^32`, `0 < n < 32`). -/
def rotl (n x : Nat) : Nat :=
  x % 2 ^ (32 - n) * 2 ^ n + x / 2 ^ (32 - n)

/-- Bitwise complement of a 32-bit word. -/
def wnot (x : Nat) : Nat := 4294967295 - x

/-- UTF-8 encoding of one character (what `str.encode('utf-8')` does). -/
def utf8Char (c : Char) : List Nat :=
  let n := c.toNat
  if n < 128 then [n]
  else if n < 2048 then [192 + n / 64, 128 + n % 64]
  else if n < 65536 then [224 + n / 4096, 128 + n / 64 % 64, 128 + n % 64]
  else [240 + n / 262144, 128 + n / 4096 % 64, 128 + n / 64 % 64, 128 + n % 64]

/-- UTF-8 encoding of a string as a byte list. -/
def utf8 (s : String) : List Nat := (s.data.map utf8Char).flatten

/-- SHA-1 message padding: `0x80`, zeros, then the bit length as 8 big-endian
bytes, to a multiple of 64 bytes. -/
def sha1Pad (msg : List Nat) : List Nat :=
  let len := msg.length
  let zeros := (119 - len % 64) % 64
  let bitlen := len * 8
  msg ++ [128] ++ List.replicate zeros 0 ++
    [w32 (bitlen / 72057594037927936) % 256, bitlen / 281474976710656 % 256,
     bitlen / 1099511627776 % 256, bitlen / 4294967296 % 256,
     bitlen / 16777216 % 256, bitlen / 65536 % 256,
     bitlen / 256 % 256, bitlen % 256]

/-- Pack a 64-byte block into 16 big-endian 32-bit words. -/
def sha1Words : List Nat → List Nat
  | b0 :: b1 :: b2 :: b3 :: rest =>
    (b0 * 16777216 + b1 * 65536 + b2 * 256 + b3) :: sha1Words rest
  | _ => []

/-- The next expanded message word `w[i] = rotl1 (w[i-3]^w[i-8]^w[i-14]^w[i-16])`
where `i` is the current length of `w`. -/
def sha1NextWord (w : List Nat) : Nat :=
  let l := w.length
  rotl 1 ((w.getD (l - 3) 0) ^^^ (w.getD (l - 8) 0) ^^^
          (w.getD (l - 14) 0) ^^^ (w.getD (l - 16) 0))

/-- Expand the 16 block words by `n` more words. -/
def sha1Extend : Nat → List Nat → List Nat
  | 0, w => w
  | n + 1, w => sha1Extend n (w ++ [sha1NextWord w])

/-- One SHA-1 round: round index `i`, message word `wi`, state `(a,b,c,d,e)`. -/
def sha1Round (i wi : Nat) (s : Nat × Nat × Nat × Nat × Nat) :
    Nat × Nat × Nat × Nat × Nat :=
  let (a, b, c, d, e) := s
  let f :=
    if i < 20 then (b &&& c) ||| (wnot b &&& d)
    else if i < 40 then b ^^^ c ^^^ d
    else if i < 60 then (b &&& c) ||| (b &&& d) ||| (c &&& d)
    else b ^^^ c ^^^ d
  let k :=
    if i < 20 then 1518500249
    else if i < 40 then 1859775393
    else if i < 60 then 2400959708
    else 3395469782
  (w32 (rotl 5 a + f + e + k + wi), a, rotl 30 b, c, d)

/-- Run the 80 rounds over the expanded words, starting at round index `i`. -/
def sha1Rounds : List Nat → Nat → (Nat × Nat × Nat × Nat × Nat) →
    Nat × Nat × Nat × Nat × Nat
  | [], _, s => s
  | wi :: ws, i, s => sha1Rounds ws (i + 1) (sha1Round i wi s)

/-- Compress one 64-byte block into the running hash state. -/
def sha1Block (block : List Nat) (h : Nat × Nat × Nat × Nat × Nat) :
    Nat × Nat × Nat × Nat × Nat :=
  let (h0, h1, h2, h3, h4) := h
  let w := sha1Extend 64 (sha1Words block)
  let (a, b, c, d, e) := sha1Rounds w 0 (h0, h1, h2, h3, h4)
  (w32 (h0 + a), w32 (h1 + b), w32 (h2 + c), w32 (h3 + d), w32 (h4 + e))

/-- Process `n` 64-byte blocks of `bytes`. -/
def sha1Blocks : Nat → List Nat → (Nat × Nat × Nat × Nat × Nat) →
    Nat × Nat × Nat × Nat × Nat
  | 0, _, h => h
  | n + 1, bytes, h => sha1Blocks n (bytes.drop 64) (sha1Block (bytes.take 64) h)

/-- SHA-1 of a byte list: the five 32-bit state words of the digest. -/
def sha1 (msg : List Nat) : Nat × Nat × Nat × Nat × Nat :=
  let padded := sha1Pad msg
  sha1Blocks (padded.length / 64) padded
    (1732584193, 4023233417, 2562383102, 271733878, 3285377520)

/-- A nibble as a lowercase hex character. -/
def hexDigit (n : Nat) : Char :=
  if n < 10 then Char.ofNat (48 + n) else Char.ofNat (87 + n % 16)

/-- A 32-bit word as 8 lowercase hex characters. -/
def hex8 (n : Nat) : List Char :=
  [hexDigit (n / 268435456 % 16), hexDigit (n / 16777216 % 16),
   hexDigit (n / 1048576 % 16), hexDigit (n / 65536 % 16),
   hexDigit (n / 4096 % 16), hexDigit (n / 256 % 16),
   hexDigit (n / 16 % 16), hexDigit (n % 16)]

/-- `hashlib.sha1(s.encode('utf-8')).hexdigest()`. -/
def sha1hex (s : String) : String :=
  let (h0, h1, h2, h3, h4) := sha1 (utf8 s)
  String.mk (hex8 h0 ++ hex8 h1 ++ hex8 h2 ++ hex8 h3 ++ hex8 h4)

/-! ## Secret redaction (`HTTPClient._redact`) and debug logging -/

/-- The default replacement text for a redacted string value:
`"{SHA1}%s" % hashlib.sha1(value.encode('utf-8')).hexdigest()`. -/
def redactText (value : String) : String := "\x7bSHA1\x7d" ++ sha1hex value

/-- Inner recursion of `HTTPClient._redact` (client.py lines 242-276) after
the last path element (`key = path.pop()`) has been split off: navigate the
remaining path (`for p in path: target = target[p]`, a `KeyError` returns
with no change), then replace `target[key]` if the key is present — by the
supplied `text` when it is truthy (the source guards with `if text:`, so a
`None` or empty replacement falls through to the digest branch), else by
`redactText` of the string value.  `none` models an uncaught Python error:
navigating into a non-dict (`TypeError`) or hashing a non-string value
(`AttributeError` on `.encode`). -/
def redactGo : Json → List String → String → Option String → Option Json
  | .obj kvs, [], key, text =>
    match lookupKV kvs key with
    | none => some (.obj kvs)
    | some v =>
      if truthyS text then
        some (.obj (setKV kvs key (.str (text.getD ""))))
      else
        match v with
        | .str s => some (.obj (setKV kvs key (.str (redactText s))))
        | _ => none
  | .obj kvs, p :: ps, key, text =>
    match lookupKV kvs p with
    | none => some (.obj kvs)
    | some child =>
      (redactGo child ps key text).map (fun c => .obj (setKV kvs p c))
  | _, _, _, _ => none

/-- `HTTPClient._redact(target, path, text=None)`: replace the value at the
nested `path` in `target` (a dict), in place; a missing intermediate or
final key leaves the dict unchanged.  `none` models a crash (see
`redactGo`); an empty path is a `pop` from an empty list, also a crash. -/
def redact (target : Json) (path : List String) (text : Option String := none) :
    Option Json :=
  match path.getLast? with
  | none => none
  | some key => redactGo target (path.dropLast) key text

/-- Render a header value the way `'%s' % value` does: strings print raw,
`None` prints as `"None"`.  (Header values in the modelled flows are always
strings or `None`.) -/
def headerValStr : Json → String
  | .str s => s
  | .null => "None"
  | _ => ""

/-- Insertion sort for the `sorted(headers.keys())` call. -/
def insertSorted (x : String) : List String → List String
  | [] => [x]
  | y :: ys => if x ≤ y then x :: y :: ys else y :: insertSorted x ys

/-- `sorted` on a list of strings. -/
def sortStrs : List String → List String
  | [] => []
  | x :: xs => insertSorted x (sortStrs xs)

/-- The keyword arguments of a request that `http_log_req` inspects:
headers (values may be `None`, e.g. a null auth token), the decoded request
body (`data` is the JSON-serialized body; the logger re-decodes it), and the
TLS-verification flag. -/
structure ReqKwargs where
  headers : List (String × Option String)
  data : Option Json := none
  verify : Bool := true

/-- Request headers as the Python dict that `_redact` mutates. -/
def headersJson (headers : List (String × Option String)) : Json :=
  .obj (headers.map (fun kv => (kv.1, match kv.2 with
    | some s => Json.str s
    | none => Json.null)))

/-- `HTTPClient.http_log_req` (client.py lines 278-303): when debug logging
is enabled, render the request as a curl command line with the
`X-Auth-Token` header and any nested `auth.passwordCredentials.password`
body field redacted.  Returns the logged text; `none` when debug logging is
off or on an uncaught error inside `_redact`.  `dumps` models the external
`json.dumps` used to re-render the redacted body. -/
def http_log_req (dumps : Json → String) (debug : Bool) (method url : String)
    (kw : ReqKwargs) : Option String :=
  if debug = false then none else
  let parts1 := "curl -g -i" ++ (if kw.verify then "" else " --insecure") ++
    " \x27" ++ url ++ "\x27" ++ " -X " ++ method
  match redact (headersJson kw.headers) ["X-Auth-Token"] none with
  | some (.obj kvs) =>
    let names := sortStrs (kvs.map (·.1))
    let hstr := String.join (names.map (fun n =>
      " -H \"" ++ n ++ ": " ++
        headerValStr ((lookupKV kvs n).getD .null) ++ "\""))
    match kw.data with
    | none => some (parts1 ++ hstr)
    | some d =>
      match redact d ["auth", "passwordCredentials", "password"] none with
      | some d2 => some (parts1 ++ hstr ++ " -d \x27" ++ dumps d2 ++ "\x27")
      | none => none
  | _ => none

/-! ## URL helpers (`six.moves.urllib.parse` / `oslo_utils.netutils`)

Faithful for the absolute `scheme://netloc/path?query#frag` URLs the client
handles; query and fragment are plain strings with `""` meaning absent
(Python passes `None`, which is falsy exactly like `''` where it is used). -/

/-- Split at the first occurrence of `pat`; `none` when absent. -/
def splitAtSub (pat : List Char) : List Char → Option (List Char × List Char)
  | [] => if pat.isEmpty then some ([], []) else none
  | c :: rest =>
    if isPreList pat (c :: rest) && !pat.isEmpty then
      some ([], (c :: rest).drop pat.length)
    else
      (splitAtSub pat rest).map (fun p => (c :: p.1, p.2))

/-- Split at the first occurrence of a character (separator dropped);
when absent, the second component is empty. -/
def splitFirst (l : List Char) (ch : Char) : List Char × List Char :=
  (l.takeWhile (fun c => c != ch), (l.dropWhile (fun c => c != ch)).drop 1)

/-- `urlsplit`: `(scheme, netloc, path, query, fragment)`. -/
def urlsplitS (s : String) : String × String × String × String × String :=
  let (noFrag, frag) := splitFirst s.data '#'
  match splitAtSub [':', '/', '/'] noFrag with
  | some (scheme, rest) =>
    let netloc := rest.takeWhile (fun c => c != '/' && c != '?')
    let rest2 := rest.dropWhile (fun c => c != '/' && c != '?')
    let (path, query) := splitFirst rest2 '?'
    (String.mk scheme, String.mk netloc, String.mk path,
     String.mk query, String.mk frag)
  | none =>
    let (path, query) := splitFirst noFrag '?'
    ("", "", String.mk path, String.mk query, String.mk frag)

/-- `urlunsplit`: rebuild a URL; empty query/fragment are omitted (Python
`None` and `''` are both falsy there). -/
def urlunsplitS (scheme netloc path query frag : String) : String :=
  let p := if path ≠ "" && !(isPreList ['/'] path.data) then "/" ++ path else path
  let u := if netloc ≠ "" then "//" ++ netloc ++ p else p
  let u := if scheme ≠ "" then scheme ++ ":" ++ u else u
  let u := if query ≠ "" then u ++ "?" ++ query else u
  if frag ≠ "" then u ++ "#" ++ frag else u

/-- Decimal digits to a number. -/
def digitsToNat (l : List Char) : Nat :=
  l.foldl (fun a c => a * 10 + (c.toNat - 48)) 0

/-- The port of a netloc (`netutils.urlsplit(...).port`), if present. -/
def portOf (netloc : String) : Option Nat :=
  let rev := netloc.data.reverse
  let ds := rev.takeWhile (fun c => c.isDigit)
  match rev.drop ds.length with
  | ':' :: _ => if ds.isEmpty then none else some (digitsToNat ds.reverse)
  | _ => none

/-- `s.replace(pat, rep)`: replace every occurrence.  Structural recursion
on a fuel that starts at the length of the list (each step consumes at least
one character, so the fuel never runs out). -/
def replaceAllGo (pat rep : List Char) : Nat → List Char → List Char
  | 0, l => l
  | _ + 1, [] => []
  | fuel + 1, c :: rest =>
    if !pat.isEmpty && isPreList pat (c :: rest) then
      rep ++ replaceAllGo pat rep fuel ((c :: rest).drop pat.length)
    else
      c :: replaceAllGo pat rep fuel rest

/-- `s.replace(pat, rep)` on strings. -/
def replaceAll (s pat rep : String) : String :=
  String.mk (replaceAllGo pat.data rep.data s.data.length s.data)

/-- `s.split(ch)` (Python semantics: `''.split('/') == ['']`). -/
def splitOnChar (ch : Char) : List Char → List (List Char)
  | [] => [[]]
  | c :: rest =>
    if c == ch then [] :: splitOnChar ch rest
    else
      match splitOnChar ch rest with
      | [] => [[c]]
      | seg :: segs => (c :: seg) :: segs

/-- Lowercase-alphanumeric character class `[a-z0-9]` of the version-probe
regex. -/
def isLowerAlnum (c : Char) : Bool :=
  ('a' ≤ c && c ≤ 'z') || ('0' ≤ c && c ≤ '9')

/-- Does the regex `v[1-9]/[a-z0-9]+$` match here, i.e. does the whole
remaining text have the form `v<digit>/<nonempty lowercase-alnum>`? -/
def vtMatchAt : List Char → Bool
  | 'v' :: d :: '/' :: rest =>
    ('1' ≤ d && d ≤ '9') && !rest.isEmpty && rest.all isLowerAlnum
  | _ => false

/-- `re.sub(r'v[1-9]/[a-z0-9]+$', '', path)`: every match of this pattern
ends at the end of the string, so `re.sub` removes the leftmost suffix
matching it (if any). -/
def stripVTL : List Char → List Char
  | [] => []
  | c :: rest => if vtMatchAt (c :: rest) then [] else c :: stripVTL rest

/-- The version/tenant-stripping substitution on strings. -/
def stripVT (s : String) : String := String.mk (stripVTL s.data)

/-! ## The dispatcher state (`HTTPClient` instance fields) -/

/-- Generic assoc-list lookup for arbitrary key types (used for the
`services_url` cache, whose key `self.service_type` may be `None`). -/
def lookupG {κ α : Type} [BEq κ] (kvs : List (κ × α)) (k : κ) : Option α :=
  (kvs.find? (fun p => p.1 == k)).map (·.2)

/-- An optional string as the JSON value Python would serialize
(`None` → `null`). -/
def optJson : Option String → Json
  | some s => .str s
  | none => .null

/-- The mutable fields of an `HTTPClient` that the authentication and
dispatch logic reads or writes.  `service_catalog` is `none` until an
authentication response is processed; `some body` models a
`ServiceCatalog` object wrapping the parsed response body (which is itself
`none` when the body failed to JSON-decode).  `keyring_saver` models whether
a keyring-saver callback is installed (`None` at construction). -/
structure ClientState where
  user : Option String := none
  user_id : Option String := none
  password : Option String := none
  projectid : Option String := none
  tenant_id : Option String := none
  auth_url : Option String := none
  version : String := "v1.1"
  region_name : Option String := none
  endpoint_type : String := "publicURL"
  service_type : Option String := none
  service_name : Option String := none
  bypass_url : Option String := none
  management_url : Option String := none
  auth_token : Option String := none
  proxy_token : Option String := none
  proxy_tenant_id : Option String := none
  service_catalog : Option (Option Json) := none
  services_url : List (Option String × String) := []
  os_cache : Bool := false
  keyring_saver : Bool := false
  keyring_saved : Bool := false
  auth_system : String := "keystone"
  has_auth_plugin : Bool := false

/-- Constructor arguments of `HTTPClient.__init__`, with the Python default
values. -/
structure InitArgs where
  user : Option String := none
  password : Option String := none
  projectid : Option String := none
  auth_url : Option String := none
  proxy_tenant_id : Option String := none
  proxy_token : Option String := none
  region_name : Option String := none
  endpoint_type : String := "publicURL"
  service_type : Option String := none
  service_name : Option String := none
  bypass_url : Option String := none
  os_cache : Bool := false
  no_cache : Bool := true
  auth_system : String := "keystone"
  has_auth_plugin : Bool := false
  plugin_auth_url : Option String := none
  auth_token : Option String := none
  tenant_id : Option String := none
  user_id : Option String := none

/-- `HTTPClient.__init__` (client.py lines 137-223): validates the auth
system, normalizes `auth_url` and `bypass_url` by stripping trailing
slashes (only when truthy), sets `management_url = bypass_url or None`, and
stores the remaining credentials unchanged.  `plugin_auth_url` models the
external plugin's `get_auth_url()`. -/
def initClient (a : InitArgs) : Except NovaError ClientState :=
  if a.auth_system ≠ "" && a.auth_system ≠ "keystone" && !a.has_auth_plugin then
    .error (.authSystemNotFound a.auth_system)
  else
    let auth_url :=
      if !truthyS a.auth_url && a.auth_system ≠ "" && a.auth_system ≠ "keystone"
      then a.plugin_auth_url else a.auth_url
    if !truthyS a.auth_url && a.auth_system ≠ "" && a.auth_system ≠ "keystone"
        && !truthyS auth_url then
      .error .endpointNotFound
    else
      let auth_url := if truthyS auth_url then auth_url.map rstripSlash
                      else auth_url
      let bypass_url := if truthyS a.bypass_url then a.bypass_url.map rstripSlash
                        else a.bypass_url
      .ok
        { user := a.user
          user_id := a.user_id
          password := a.password
          projectid := a.projectid
          tenant_id := a.tenant_id
          auth_url := auth_url
          version := "v1.1"
          region_name := a.region_name
          endpoint_type := a.endpoint_type
          service_type := a.service_type
          service_name := a.service_name
          bypass_url := bypass_url
          management_url := if truthyS bypass_url then bypass_url else none
          auth_token := a.auth_token
          proxy_token := a.proxy_token
          proxy_tenant_id := a.proxy_tenant_id
          service_catalog := none
          services_url := []
          os_cache := a.os_cache || !a.no_cache
          keyring_saver := false
          keyring_saved := false
          auth_system := a.auth_system
          has_auth_plugin := a.has_auth_plugin }

/-- `HTTPClient.unauthenticate` (client.py lines 228-231): forget the
management URL and the auth token. -/
def unauthenticate (st : ClientState) : ClientState :=
  { st with management_url := none, auth_token := none }

/-- `HTTPClient.set_management_url`. -/
def set_management_url (st : ClientState) (url : Option String) : ClientState :=
  { st with management_url := url }

/-- `HTTPClient._save_keys` (client.py lines 595-604): persist
token/management URL/tenant to the keyring only when a saver is installed,
caching is on, nothing was saved yet and all three values are present. -/
def save_keys (st : ClientState) : ClientState :=
  if st.keyring_saver && st.os_cache && !st.keyring_saved &&
      truthyS st.auth_token && truthyS st.management_url &&
      truthyS st.tenant_id then
    { st with keyring_saved := true }
  else st

/-! ## The world: state + scripted transport + observables -/

/-- One request as actually handed to the HTTP transport.  Header values
are optional because Python happily sends a header dict whose
`X-Auth-Token` value is `None`. -/
structure SentReq where
  url : String
  method : String
  headers : List (String × Option String)
  deriving DecidableEq, Repr

/-- The dispatcher state together with its environment: `script n` is the
response the transport returns to the n-th network call, `decode` models
the external `json.loads` (`none` = `ValueError`), `calls` counts network
calls, `sent` is the trace of requests sent, and `resolves` counts the
consultations of the service-catalog resolver (`url_for`). -/
structure World where
  st : ClientState
  script : Nat → Response
  decode : String → Option Json
  calls : Nat := 0
  sent : List SentReq := []
  resolves : Nat := 0

/-- `HTTPClient.request` / `_time_request` (client.py lines 351-403): set
the `User-Agent`, `Accept` and (when a body is present) `Content-Type`
headers, hand the request to the transport, and classify the scripted
response (`classifyResponse`).  Timing records and debug logging have no
effect on the dispatch logic and are modelled separately
(`http_log_req`). -/
def doRequest (w : World) (url method : String)
    (headers : List (String × Option String)) (body : Option Json) :
    Except NovaError (Response × Option Json) × World :=
  let hdrs := setKV headers "User-Agent" (some "python-novaclient")
  let hdrs := setKV hdrs "Accept" (some "application/json")
  let hdrs := match body with
    | some _ => setKV hdrs "Content-Type" (some "application/json")
    | none => hdrs
  let resp := w.script w.calls
  let w' := { w with
    calls := w.calls + 1
    sent := w.sent ++ [⟨url, method, hdrs⟩] }
  (classifyResponse w.decode resp url method, w')

/-! ## Service catalog (spec-modelled collaborator) -/

/-- Modelled from the spec: `novaclient/service_catalog.py` is not under
`src/`.  Per spec §3/§4.4 the catalog is the parsed v2 auth body; resolution
walks `access.serviceCatalog`, keeps the entries whose `type` equals the
requested service type (and, when a service name is configured, whose
`name` equals it), keeps the endpoints that match the region filter (no
region configured = no filtering) and carry the requested endpoint-type
key, and fails distinguishably on zero (`EndpointNotFound`) or several
(`AmbiguousEndpoints`) matches.  A `None` body crashes with a `TypeError`
like the Python subscript would. -/
def url_for (body : Option Json) (region_name : Option String)
    (endpoint_type : String) (service_type : Option String)
    (service_name : Option String) : Except NovaError String :=
  match body with
  | none => .error (.pyError "TypeError")
  | some b =>
    let entries :=
      match (jLookup b "access").bind (fun a => jLookup a "serviceCatalog") with
      | some (.arr xs) => xs
      | _ => []
    let entryOk : Json → Bool := fun e =>
      (match service_type, jLookup e "type" with
       | some stv, some (.str t) => t == stv
       | _, _ => false) &&
      (match service_name with
       | none => true
       | some nm =>
         match jLookup e "name" with
         | some (.str n) => n == nm
         | _ => false)
    let endpoints : List Json := (entries.filter entryOk).flatMap (fun e =>
      match jLookup e "endpoints" with
      | some (.arr eps) => eps
      | _ => [])
    let epOk : Json → Bool := fun ep =>
      match region_name with
      | none => true
      | some r =>
        match jLookup ep "region" with
        | some (.str er) => er == r
        | _ => false
    let urls := (endpoints.filter epOk).filterMap (fun ep =>
      match jLookup ep endpoint_type with
      | some (.str u) => some u
      | _ => none)
    match urls with
    | [] => .error .endpointNotFound
    | [u] => .ok u
    | _ => .error .ambiguousEndpoints

/-- Modelled from the spec: `ServiceCatalog.get_token` reads
`access.token.id` from the stored auth body (`service_catalog.py` is not
under `src/`); a missing key is a `KeyError`. -/
def catalogToken (body : Option Json) : Option String :=
  match (body.bind (fun b => jLookup b "access")).bind
      (fun a => (jLookup a "token").bind (fun t => jLookup t "id")) with
  | some (.str t) => some t
  | _ => none

/-- Modelled from the spec: `ServiceCatalog.get_tenant_id` reads
`access.token.tenant.id` (`service_catalog.py` is not under `src/`). -/
def catalogTenant (body : Option Json) : Option String :=
  match (body.bind (fun b => jLookup b "access")).bind
      (fun a => (jLookup a "token").bind
        (fun t => (jLookup t "tenant").bind (fun tn => jLookup tn "id"))) with
  | some (.str t) => some t
  | _ => none

/-- `HTTPClient.get_service_url` (client.py lines 462-473): return the
memoized URL for this service type if one exists; otherwise resolve it
through the service catalog, strip trailing slashes, memoize and return it.
A resolver consultation bumps `resolves`; calling through a `None` catalog
is the Python `AttributeError`. -/
def get_service_url (w : World) (service_type : Option String) :
    Except NovaError String × World :=
  match lookupG w.st.services_url service_type with
  | some u => (.ok u, w)
  | none =>
    match w.st.service_catalog with
    | none => (.error (.pyError "AttributeError"), w)
    | some catBody =>
      match url_for catBody w.st.region_name w.st.endpoint_type service_type
          w.st.service_name with
      | .error e => (.error e, { w with resolves := w.resolves + 1 })
      | .ok u =>
        let u := rstripSlash u
        (.ok u,
         { w with
           resolves := w.resolves + 1
           st := { w.st with
                   services_url := w.st.services_url ++ [(service_type, u)] } })

/-- `HTTPClient._extract_service_catalog` (client.py lines 475-507): on a
200/201, store the auth URL and the catalog, extract token and tenant when
asked (a missing key is the `KeyError` the source converts to
`AuthorizationFailure`; mutations made before the failing line persist),
then resolve and store the management URL; on a 305 return the redirect
location; otherwise raise the table-driven error (`from_response` is called
there without a method argument, modelled as `""`). -/
def extract_service_catalog (w : World) (url : String) (resp : Response)
    (body : Option Json) (extract_token : Bool) :
    Except NovaError (Option String) × World :=
  if resp.status = 200 || resp.status = 201 then
    let w := { w with st := { w.st with
      auth_url := some url, service_catalog := some body } }
    let tokStep : Except NovaError Unit × World :=
      if extract_token then
        match catalogToken body with
        | none =>
          (if body.isNone then .error (.pyError "TypeError")
           else .error (.authorizationFailure ""), w)
        | some t =>
          let w := { w with st := { w.st with auth_token := some t } }
          match catalogTenant body with
          | none => (.error (.authorizationFailure ""), w)
          | some tid =>
            (.ok (), { w with st := { w.st with tenant_id := some tid } })
      else (.ok (), w)
    match tokStep with
    | (.error e, w') => (.error e, w')
    | (.ok (), w') =>
      match get_service_url w' w'.st.service_type with
      | (.error e, w'') => (.error e, w'')
      | (.ok u, w'') =>
        (.ok none, { w'' with st := { w''.st with management_url := some u } })
  else if resp.status = 305 then
    match lookupKV resp.headers "location" with
    | some loc => (.ok (some loc), w)
    | none => (.error (.pyError "KeyError"), w)
  else
    (.error (from_response resp body url ""), w)

/-! ## Authentication protocols -/

/-- `HTTPClient._get_password` (client.py lines 445-448); the interactive
`password_func` fallback is an external callback and is not installed in
any modelled flow. -/
def get_password (st : ClientState) : Option String := st.password

/-- `HTTPClient._v1_auth` (client.py lines 606-627): GET the auth endpoint
with user/key headers.  On 200/204 read the `x-server-management-url` and
`x-auth-token` response headers — the management URL is assigned *before*
the token header is read, so a response carrying only the management URL
mutates `management_url` and then fails with the `KeyError`-mapped
`AuthorizationFailure`.  On 305 return the redirect location.  Other
statuses raise the table-driven error.  Returns `none` when authentication
completed (the Python `return None` that ends the caller's loop). -/
def v1_auth (w : World) (url : String) :
    Except NovaError (Option String) × World :=
  if truthyS w.st.proxy_token then (.error .noTokenLookup, w)
  else
    let headers : List (String × Option String) :=
      [("X-Auth-User", w.st.user), ("X-Auth-Key", get_password w.st)] ++
      (if truthyS w.st.projectid then [("X-Auth-Project-Id", w.st.projectid)]
       else [])
    match doRequest w url "GET" headers none with
    | (.error e, w') => (.error e, w')
    | (.ok (resp, body), w') =>
      if resp.status = 200 || resp.status = 204 then
        match lookupKV resp.headers "x-server-management-url" with
        | none => (.error (.authorizationFailure ""), w')
        | some m =>
          let w'' := { w' with st := { w'.st with
            management_url := some (rstripSlash m) } }
          match lookupKV resp.headers "x-auth-token" with
          | none => (.error (.authorizationFailure ""), w'')
          | some t =>
            (.ok none, { w'' with st := { w''.st with
              auth_token := some t, auth_url := some url } })
      else if resp.status = 305 then
        match lookupKV resp.headers "location" with
        | some loc => (.ok (some loc), w')
        | none => (.error (.pyError "KeyError"), w')
      else
        (.error (from_response resp body url ""), w')

/-- The JSON body of a v2 token request (`HTTPClient._v2_auth`, client.py
lines 632-651): token, else user-id+password, else username+password, plus
tenantId or tenantName when known. -/
def v2AuthBody (st : ClientState) : Json :=
  let inner : List (String × Json) :=
    if truthyS st.auth_token then
      [("token", .obj [("id", optJson st.auth_token)])]
    else if truthyS st.user_id then
      [("passwordCredentials",
        .obj [("userId", optJson st.user_id),
              ("password", optJson (get_password st))])]
    else
      [("passwordCredentials",
        .obj [("username", optJson st.user),
              ("password", optJson (get_password st))])]
  let inner :=
    if truthyS st.tenant_id then inner ++ [("tenantId", optJson st.tenant_id)]
    else if truthyS st.projectid then
      inner ++ [("tenantName", optJson st.projectid)]
    else inner
  .obj [("auth", .obj inner)]

/-- `HTTPClient._authenticate` (client.py lines 653-666): POST the body to
`<url>/tokens` and process the response through
`_extract_service_catalog`. -/
def authenticateStep (w : World) (url : String) (body : Json) :
    Except NovaError (Option String) × World :=
  let token_url := url ++ "/tokens"
  match doRequest w token_url "POST" [] (some body) with
  | (.error e, w') => (.error e, w')
  | (.ok (resp, respbody), w') =>
    extract_service_catalog w' url resp respbody true

/-- `HTTPClient._v2_auth`. -/
def v2_auth (w : World) (url : String) :
    Except NovaError (Option String) × World :=
  authenticateStep w url (v2AuthBody w.st)

/-- The `while auth_url: auth_url = self._v2_auth(auth_url)` loop of
`authenticate`.  `fuel` bounds the redirect chain (the Python loop is
unbounded); running out of fuel yields the artificial `fuelOut` error. -/
def v2Loop : Nat → World → String → Except NovaError Unit × World
  | 0, w, _ => (.error .fuelOut, w)
  | fuel + 1, w, url =>
    match v2_auth w url with
    | (.error e, w') => (.error e, w')
    | (.ok none, w') => (.ok (), w')
    | (.ok (some loc), w') =>
      if loc = "" then (.ok (), w') else v2Loop fuel w' loc

/-- The `while auth_url: auth_url = self._v1_auth(auth_url)` loop; the
third component is the value of the `auth_url` loop variable at the time of
an error (the `except AuthorizationFailure` fallback reads it). -/
def v1Loop : Nat → World → String → Except NovaError Unit × World × String
  | 0, w, url => (.error .fuelOut, w, url)
  | fuel + 1, w, url =>
    match v1_auth w url with
    | (.error e, w') => (.error e, w', url)
    | (.ok none, w') => (.ok (), w', url)
    | (.ok (some loc), w') =>
      if loc = "" then (.ok (), w', loc) else v1Loop fuel w' loc

/-- `HTTPClient._fetch_endpoints_from_auth` (client.py lines 509-528):
GET `<url>/tokens/<proxy_token>?belongsTo=<proxy_tenant_id>` with the
current (admin) token and process the catalog without extracting a token. -/
def fetch_endpoints_from_auth (w : World) (url : String) :
    Except NovaError (Option String) × World :=
  let url2 := url ++ "/tokens/" ++ (w.st.proxy_token.getD "None") ++
    "?belongsTo=" ++ (w.st.proxy_tenant_id.getD "None")
  match doRequest w url2 "GET" [("X-Auth-Token", w.st.auth_token)] none with
  | (.error e, w') => (.error e, w')
  | (.ok (resp, body), w') => extract_service_catalog w' url2 resp body false

/-- The common tail of `authenticate` (client.py lines 588-593): an
explicit bypass URL overrides the management URL; a still-missing
management URL is an `Unauthorized('Nova Client')`; then `_save_keys`. -/
def authFinish (w : World) : Except NovaError Unit × World :=
  if truthyS w.st.bypass_url then
    let w := { w with st := set_management_url w.st w.st.bypass_url }
    (.ok (), { w with st := save_keys w.st })
  else if !truthyS w.st.management_url then
    (.error (.unauthorized ⟨401, "Nova Client", "", ""⟩), w)
  else
    (.ok (), { w with st := save_keys w.st })

/-- `HTTPClient.authenticate` (client.py lines 530-593).  Steps: require a
truthy auth URL; parse it and remember the API version from the first
path segment starting with `v`; short-circuit (no network) when both a
token and a management URL are already present; otherwise run the v2
(keystone), plugin, or v1 protocol — the v1 path falls back to v2 at
`<url>/v2.0` on an `AuthorizationFailure`; handle proxy-token mode via the
admin endpoint on port 35357; finally apply the bypass override and save
keys.  Plugin authentication (`_plugin_auth`) is an external collaborator
and is modelled as an opaque failure; no modelled flow uses it. -/
def authenticate (fuel : Nat) (w : World) : Except NovaError Unit × World :=
  if !truthyS w.st.auth_url then
    (.error (.authorizationFailure "Authentication requires auth_url"), w)
  else
    let aurl := w.st.auth_url.getD ""
    let (scheme, netloc, path, query, frag) := urlsplitS aurl
    let port := (portOf netloc).getD 80
    let parts := splitOnChar '/' path.data
    let version :=
      match parts.find? (fun p => !p.isEmpty && p.headD ' ' == 'v') with
      | some p => String.mk p
      | none => w.st.version
    let w := { w with st := { w.st with version := version } }
    if truthyS w.st.auth_token && truthyS w.st.management_url then
      (.ok (), { w with st := save_keys w.st })
    else
      let new_netloc := replaceAll netloc (":" ++ Nat.repr port) ":35357"
      let admin_url := urlunsplitS scheme new_netloc path query frag
      if version = "v2.0" then
        let loopRes :=
          if w.st.auth_system = "" || w.st.auth_system = "keystone" then
            v2Loop fuel w aurl
          else
            (.error (.pyError "auth_plugin"), w)
        match loopRes with
        | (.error e, w') => (.error e, w')
        | (.ok (), w') =>
          let proxyRes : Except NovaError Unit × World :=
            if truthyS w'.st.proxy_token then
              if truthyS w'.st.bypass_url then
                (.ok (), { w' with st :=
                  set_management_url w'.st w'.st.bypass_url })
              else
                match fetch_endpoints_from_auth w' admin_url with
                | (.error e, w'') => (.error e, w'')
                | (.ok _, w'') => (.ok (), w'')
            else (.ok (), w')
          match proxyRes with
          | (.error e, w'') => (.error e, w'')
          | (.ok (), w'') =>
            let w'' :=
              if truthyS w''.st.proxy_token then
                { w'' with st := { w''.st with
                  auth_token := w''.st.proxy_token } }
              else w''
            authFinish w''
      else
        match v1Loop fuel w aurl with
        | (.ok (), w', _) => authFinish w'
        | (.error (.authorizationFailure _), w', lastUrl) =>
          let u2 := if hasSubstr lastUrl "v2.0" then lastUrl
                    else lastUrl ++ "/v2.0"
          match v2_auth w' u2 with
          | (.error e, w'') => (.error e, w'')
          | (.ok _, w'') => authFinish w''
        | (.error e, w', _) => (.error e, w')

/-! ## The authenticated request wrapper (`_cs_request`) -/

/-- The URL-resolution block of `_cs_request` (client.py lines 408-419),
run after authentication has ensured a management URL.  A `none` path
strips any trailing `v<digit>/<tenant>` from the management URL's path and
drops query and fragment; otherwise the relative path is prefixed by the
catalog-resolved URL (when a catalog exists and no bypass URL is set) or by
the management URL. -/
def resolveRequestUrl (w : World) (url : Option String) :
    Except NovaError String × World :=
  match url with
  | none =>
    let (scheme, netloc, path, _, _) :=
      urlsplitS (w.st.management_url.getD "")
    (.ok (urlunsplitS scheme netloc (stripVT path) "" ""), w)
  | some u =>
    if w.st.service_catalog.isSome && !truthyS w.st.bypass_url then
      match get_service_url w w.st.service_type with
      | (.ok base, w') => (.ok (base ++ u), w')
      | (.error e, w') => (.error e, w')
    else
      (.ok ((w.st.management_url.getD "") ++ u), w)

/-- `HTTPClient._cs_request` (client.py lines 405-443).  Authenticate first
when no management URL is set; resolve the final URL
(`resolveRequestUrl`); attach the `X-Auth-Token` (and optional
`X-Auth-Project-Id`) headers; on an `Unauthorized` failure discard the
token, run a fresh authentication and retry the request exactly once — a
second `Unauthorized` (from the re-authentication or the retry) re-raises
the *original* error. -/
def cs_request (fuel : Nat) (w : World) (url : Option String) (method : String)
    (headers0 : List (String × Option String) := [])
    (body : Option Json := none) :
    Except NovaError (Response × Option Json) × World :=
  let authStep : Except NovaError Unit × World :=
    if !truthyS w.st.management_url then authenticate fuel w else (.ok (), w)
  match authStep with
  | (.error e, w) => (.error e, w)
  | (.ok (), w) =>
    match resolveRequestUrl w url with
    | (.error e, w) => (.error e, w)
    | (.ok fullUrl, w) =>
      let hdrs := setKV headers0 "X-Auth-Token" w.st.auth_token
      let hdrs := if truthyS w.st.projectid then
          setKV hdrs "X-Auth-Project-Id" w.st.projectid
        else hdrs
      match doRequest w fullUrl method hdrs body with
      | (.ok rb, w1) => (.ok rb, w1)
      | (.error e, w1) =>
        if e.isUnauthorized then
          let w2 := { w1 with st :=
            { unauthenticate w1.st with keyring_saved := false } }
          match authenticate fuel w2 with
          | (.error e2, w3) =>
            if e2.isUnauthorized then (.error e, w3) else (.error e2, w3)
          | (.ok (), w3) =>
            let hdrs2 := setKV hdrs "X-Auth-Token" w3.st.auth_token
            match doRequest w3 fullUrl method hdrs2 body with
            | (.ok rb, w4) => (.ok rb, w4)
            | (.error e2, w4) =>
              if e2.isUnauthorized then (.error e, w4) else (.error e2, w4)
        else (.error e, w1)

/-- `HTTPClient.get`. -/
def get (fuel : Nat) (w : World) (url : String) :
    Except NovaError (Response × Option Json) × World :=
  cs_request fuel w (some url) "GET"

/-- `HTTPClient.post`. -/
def post (fuel : Nat) (w : World) (url : String) (body : Option Json := none) :
    Except NovaError (Response × Option Json) × World :=
  cs_request fuel w (some url) "POST" [] body

/-- `HTTPClient.put`. -/
def put (fuel : Nat) (w : World) (url : String) (body : Option Json := none) :
    Except NovaError (Response × Option Json) × World :=
  cs_request fuel w (some url) "PUT" [] body

/-- `HTTPClient.delete`. -/
def delete (fuel : Nat) (w : World) (url : String) :
    Except NovaError (Response × Option Json) × World :=
  cs_request fuel w (some url) "DELETE"

/-! ## Scenario fixtures -/

set_option maxRecDepth 10000

/-- An error body of the shape nova returns, carrying a message. -/
def errBody (m : String) : Json :=
  .obj [("computeFault", .obj [("message", .str m)])]

/-- A keystone v2 auth-response body: token `tok`, tenant `ten`, and a
compute endpoint at `http://nova/v2/t`. -/
def c1Catalog (tok : String) : Json :=
  .obj [("access", .obj [
    ("token", .obj [("id", .str tok), ("tenant", .obj [("id", .str "ten")])]),
    ("serviceCatalog", .arr [
      .obj [("type", .str "compute"),
            ("endpoints", .arr [
              .obj [("publicURL", .str "http://nova/v2/t")]])]])])]

/-- A dispatcher that already holds a token and a management URL. -/
def c1State (tok0 : String) : ClientState :=
  { user := some "u", password := some "p",
    auth_url := some "http://ks:5000/v2.0", service_type := some "compute",
    management_url := some "http://nova/v2/t", auth_token := some tok0 }

/-- Transport script: first request 401, re-authentication succeeds,
retried request 401 again. -/
def c1Script : Nat → Response
  | 0 => ⟨401, [], "E1"⟩
  | 1 => ⟨200, [], "CAT"⟩
  | _ => ⟨401, [], "E2"⟩

/-- `json.loads` for the scripted bodies: the two 401 bodies carry
distinguishable messages `m1`/`m2`; `CAT` is the auth response. -/
def c1Decode (m1 m2 tokNew : String) : String → Option Json := fun s =>
  if s = "E1" then some (errBody m1)
  else if s = "E2" then some (errBody m2)
  else if s = "CAT" then some (c1Catalog tokNew) else none

def c1World (tok0 tokNew m1 m2 : String) : World :=
  { st := c1State tok0, script := c1Script, decode := c1Decode m1 m2 tokNew }

/-- A variant whose first response is a 403: no retry may happen. -/
def c1bWorld (tok0 m3 : String) : World :=
  { st := c1State tok0, script := fun _ => ⟨403, [], "E3"⟩,
    decode := fun s => if s = "E3" then some (errBody m3) else none }

/-! ## Claim theorems -/

/-- **C1**: through the authenticated request wrapper, a first-attempt
`Unauthorized` makes the dispatcher discard its token, re-authenticate from
scratch (one POST to `<auth_url>/tokens`), and retry exactly once carrying
the new token; when the retry is also `Unauthorized`, the error raised is
the *original* one (message `m1`, not the retry's `m2`).  A non-401 error
(the 403 variant) is raised directly after a single attempt — no retry.
The scripted run makes this observable: exactly 3 network calls (attempt,
re-auth, retry) in the 401/401 case and exactly 1 in the 403 case, with the
full request trace pinned, for arbitrary method, path, tokens and error
messages. -/
theorem cs_request_retry_once_original_unauthorized
    (method path tok0 tokNew m1 m2 m3 : String) :
    (cs_request 9 (c1World tok0 tokNew m1 m2) (some path) method).1 =
      .error (.unauthorized ⟨401, m1, "http://nova/v2/t" ++ path, method⟩) ∧
    (cs_request 9 (c1World tok0 tokNew m1 m2) (some path) method).2.calls = 3 ∧
    (cs_request 9 (c1World tok0 tokNew m1 m2) (some path) method).2.sent =
      [⟨"http://nova/v2/t" ++ path, method,
        [("X-Auth-Token", some tok0), ("User-Agent", some "python-novaclient"),
         ("Accept", some "application/json")]⟩,
       ⟨"http://ks:5000/v2.0/tokens", "POST",
        [("User-Agent", some "python-novaclient"),
         ("Accept", some "application/json"),
         ("Content-Type", some "application/json")]⟩,
       ⟨"http://nova/v2/t" ++ path, method,
        [("X-Auth-Token", some tokNew), ("User-Agent", some "python-novaclient"),
         ("Accept", some "application/json")]⟩] ∧
    (cs_request 9 (c1World tok0 tokNew m1 m2) (some path) method).2.st.auth_token
      = some tokNew ∧
    (cs_request 9 (c1bWorld tok0 m3) (some path) method).1 =
      .error (.forbidden ⟨403, m3, "http://nova/v2/t" ++ path, method⟩) ∧
    (cs_request 9 (c1bWorld tok0 m3) (some path) method).2.calls = 1 :=
  ⟨rfl, rfl, rfl, rfl, rfl, rfl⟩

/-- **C2**: for every response, `request` raises the table-driven typed
error on any status ≥ 400 — except that a status of exactly 400 with a
non-empty body containing "Connection refused" or "actively refused" raises
`ConnectionRefused` — and on any status < 400 raises nothing and returns
the JSON-decoded body (null on an empty or undecodable body). -/
theorem request_status_error_table (decode : String → Option Json)
    (resp : Response) (url method : String) :
    (400 ≤ resp.status →
      classifyResponse decode resp url method =
        .error
          (if resp.status = 400 ∧ resp.text ≠ "" ∧
              (hasSubstr resp.text "Connection refused" = true ∨
               hasSubstr resp.text "actively refused" = true) then
            .connectionRefused resp.text
          else
            from_response resp
              (if resp.text = "" then none else decode resp.text) url method)) ∧
    (resp.status < 400 →
      classifyResponse decode resp url method =
        .ok (resp, if resp.text = "" then none else decode resp.text)) := by
  unfold classifyResponse
  by_cases ht : resp.text = ""
  · constructor
    · intro hge
      simp [ht, hge]
    · intro hlt
      simp [ht, show ¬(400 ≤ resp.status) from by omega]
  · constructor
    · intro hge
      rw [if_pos ht]
      by_cases hcr : (decide (resp.status = 400) &&
          (hasSubstr resp.text "Connection refused" ||
           hasSubstr resp.text "actively refused")) = true
      · have h' := hcr
        simp only [Bool.and_eq_true, decide_eq_true_eq, Bool.or_eq_true] at h'
        rw [if_pos hcr, if_pos ⟨h'.1, ht, h'.2⟩]
      · have h' := hcr
        simp only [Bool.and_eq_true, decide_eq_true_eq, Bool.or_eq_true,
          not_and_or] at h'
        rw [if_neg hcr, if_pos hge, if_neg ?_, if_neg ht]
        rcases h' with h' | h'
        · exact fun hc => h' hc.1
        · exact fun hc => h' hc.2.2
    · intro hlt
      rw [if_pos ht]
      rw [if_neg ?_, if_neg (by omega), if_neg ht]
      simp only [Bool.and_eq_true, decide_eq_true_eq]
      exact fun hc => by omega

/-- Witness for **C2** at concrete inputs: a 404 raises `NotFound` per the
table, and a 400 whose body says "Connection refused" raises
`ConnectionRefused` instead of `BadRequest`. -/
theorem request_status_error_table_witness :
    classifyResponse (fun _ => none) ⟨404, [], ""⟩ "http://u" "GET" =
      .error (.notFound ⟨404, "", "http://u", "GET"⟩) ∧
    classifyResponse (fun _ => none) ⟨400, [], "Connection refused by peer"⟩
        "http://u" "GET" =
      .error (.connectionRefused "Connection refused by peer") := by
  constructor
  · have h := (request_status_error_table (fun _ => none) ⟨404, [], ""⟩
      "http://u" "GET").1 (by decide)
    simpa using h
  · have h := (request_status_error_table (fun _ => none)
      ⟨400, [], "Connection refused by peer"⟩ "http://u" "GET").1 (by decide)
    rw [if_pos (by refine ⟨rfl, by decide, Or.inl (by decide)⟩)] at h
    exact h

/-- **C3**: once a (truthy) token and management URL both exist — the code's
"valid token and management URL" test is Python truthiness — a further
`authenticate()` performs zero network calls and leaves the session
untouched: the call counter and the trace of sent requests do not move, the
token and management URL are preserved, and (whenever an auth URL is
configured at all) the call short-circuits to success. -/
theorem authenticate_short_circuit_no_network (fuel : Nat) (w : World)
    (htok : truthyS w.st.auth_token = true)
    (hmgmt : truthyS w.st.management_url = true) :
    (authenticate fuel w).2.calls = w.calls ∧
    (authenticate fuel w).2.sent = w.sent ∧
    (authenticate fuel w).2.st.auth_token = w.st.auth_token ∧
    (authenticate fuel w).2.st.management_url = w.st.management_url ∧
    (truthyS w.st.auth_url = true → (authenticate fuel w).1 = .ok ()) := by
  unfold authenticate
  by_cases hau : truthyS w.st.auth_url
  · simp only [hau, Bool.not_true, Bool.false_eq_true, if_false, htok, hmgmt,
      Bool.and_self, if_true]
    refine ⟨?_, ?_, ?_, ?_, ?_⟩ <;>
      first
        | trivial
        | (simp [save_keys]; try (split <;> rfl))
  · simp only [Bool.not_eq_true] at hau
    simp [hau]

/-- A dispatcher already holding a token and a management URL, whose
transport would blow up if it were ever consulted. -/
def c3World : World :=
  { st := { auth_url := some "http://ks:5000/v2.0", auth_token := some "tok",
            management_url := some "http://nova/v2/t" },
    script := fun _ => ⟨500, [], "transport must not be touched"⟩,
    decode := fun _ => none }

/-- Witness for **C3**: on a concrete authenticated dispatcher the second
`authenticate` makes zero network calls and succeeds. -/
theorem authenticate_short_circuit_no_network_witness :
    (authenticate 5 c3World).2.calls = 0 ∧ (authenticate 5 c3World).1 = .ok () :=
  ⟨(authenticate_short_circuit_no_network 5 c3World rfl rfl).1.trans rfl,
   (authenticate_short_circuit_no_network 5 c3World rfl rfl).2.2.2.2 rfl⟩

/-- A fully populated session. -/
def c4State : ClientState :=
  { auth_token := some "tok", management_url := some "http://m",
    service_catalog := some (some (.obj [])), tenant_id := some "ten" }

/-- **C4** counterexample: `unauthenticate` does *not* clear the whole
session — on a state with a catalog and a tenant id, both survive the call
(only the token and the management URL are reset), refuting the claim that
all four authentication-derived fields become null. -/
theorem unauthenticate_keeps_catalog_and_tenant :
    (unauthenticate c4State).auth_token = none ∧
    (unauthenticate c4State).management_url = none ∧
    (unauthenticate c4State).service_catalog ≠ none ∧
    (unauthenticate c4State).tenant_id = some "ten" := by
  refine ⟨rfl, rfl, ?_, rfl⟩
  simp [unauthenticate, c4State]

/-- **C4** as amended: `unauthenticate` resets exactly `auth_token` and
`management_url` to null, atomically, and leaves the other
authentication-derived fields (`service_catalog`, `tenant_id`, and the
resolved-URL cache) unchanged. -/
theorem unauthenticate_clears_token_and_management_url (st : ClientState) :
    (unauthenticate st).auth_token = none ∧
    (unauthenticate st).management_url = none ∧
    (unauthenticate st).service_catalog = st.service_catalog ∧
    (unauthenticate st).tenant_id = st.tenant_id ∧
    (unauthenticate st).services_url = st.services_url :=
  ⟨rfl, rfl, rfl, rfl, rfl⟩

/-- A fresh unauthenticated dispatcher about to run v1 authentication, whose
auth service answers 200 with a management-URL header but *no* token
header. -/
def c5World : World :=
  { st := { user := some "u", password := some "p",
            auth_url := some "http://auth" },
    script := fun _ => ⟨200, [("x-server-management-url", "http://mgmt/")], ""⟩,
    decode := fun _ => none }

/-- **C5**: the code violates the claimed invariant.  A v1 authentication
step answered 200-with-management-URL-but-no-token fails with
`AuthorizationFailure` (the `KeyError` path), yet the state it leaves
behind has a non-null `management_url` (assigned before the token header
was read) and a null `auth_token`, with no bypass override in play — the
exact situation the invariant forbids. -/
theorem v1_auth_management_url_without_token :
    (v1_auth c5World "http://auth").1 = .error (.authorizationFailure "") ∧
    (v1_auth c5World "http://auth").2.st.management_url = some "http://mgmt" ∧
    (v1_auth c5World "http://auth").2.st.auth_token = none ∧
    (v1_auth c5World "http://auth").2.st.bypass_url = none ∧
    c5World.st.management_url = none :=
  ⟨rfl, rfl, rfl, rfl, rfl⟩

/-- A lookup that succeeds on the left of an append still succeeds on the
whole list. -/
theorem lookupG_append_some {κ α : Type} [BEq κ] (l l' : List (κ × α)) (k : κ)
    (u : α) (h : lookupG l k = some u) : lookupG (l ++ l') k = some u := by
  unfold lookupG at *
  rw [List.find?_append]
  cases hf : List.find? (fun p => p.1 == k) l with
  | none => rw [hf] at h; simp at h
  | some x => rw [hf] at h; simpa using h

/-- `get_service_url` only ever appends to the `services_url` cache. -/
theorem get_service_url_cache_grows (w : World) (stype : Option String) :
    ∃ l', (get_service_url w stype).2.st.services_url =
      w.st.services_url ++ l' := by
  unfold get_service_url
  cases hl : lookupG w.st.services_url stype with
  | some v => exact ⟨[], by simp⟩
  | none =>
    cases hc : w.st.service_catalog with
    | none => exact ⟨[], by simp⟩
    | some catBody =>
      cases hu : url_for catBody w.st.region_name w.st.endpoint_type stype
          w.st.service_name with
      | error e => exact ⟨[], by simp [hu]⟩
      | ok v => exact ⟨[(stype, rstripSlash v)], by simp [hu]⟩

/-- `_extract_service_catalog` never removes entries from the
`services_url` cache either. -/
theorem extract_service_catalog_cache_grows (w : World) (url : String)
    (resp : Response) (body : Option Json) (et : Bool) :
    ∃ l', (extract_service_catalog w url resp body et).2.st.services_url =
      w.st.services_url ++ l' := by
  unfold extract_service_catalog
  by_cases h1 : (resp.status = 200 || resp.status = 201) = true
  · simp only [h1, if_true]
    cases et with
    | false =>
      simp only [Bool.false_eq_true, if_false]
      have hg := get_service_url_cache_grows
        { w with st := { w.st with
            auth_url := some url, service_catalog := some body } }
        w.st.service_type
      rcases hg with ⟨l', hl'⟩
      cases hu : (get_service_url
          { w with st := { w.st with
              auth_url := some url, service_catalog := some body } }
          w.st.service_type) with
      | mk r w2 =>
        cases r with
        | error e => exact ⟨l', by rw [hu] at hl'; simpa [hu] using hl'⟩
        | ok v => exact ⟨l', by rw [hu] at hl'; simpa [hu] using hl'⟩
    | true =>
      simp only [if_true]
      cases hct : catalogToken body with
      | none =>
        refine ⟨[], ?_⟩
        by_cases hb : body.isNone <;> simp [hct, hb]
      | some t =>
        cases hcn : catalogTenant body with
        | none => exact ⟨[], by simp [hct, hcn]⟩
        | some tid =>
          simp only [hct, hcn]
          have hg := get_service_url_cache_grows
            { w with st := { w.st with
                auth_url := some url, service_catalog := some body,
                auth_token := some t, tenant_id := some tid } }
            w.st.service_type
          rcases hg with ⟨l', hl'⟩
          cases hu : (get_service_url
              { w with st := { w.st with
                  auth_url := some url, service_catalog := some body,
                  auth_token := some t, tenant_id := some tid } }
              w.st.service_type) with
          | mk r w2 =>
            cases r with
            | error e => exact ⟨l', by rw [hu] at hl'; simpa [hu] using hl'⟩
            | ok v => exact ⟨l', by rw [hu] at hl'; simpa [hu] using hl'⟩
  · simp only [h1, if_false]
    by_cases h2 : (resp.status = 305 : Prop)
    · simp only [h2, if_pos]
      cases hloc : lookupKV resp.headers "location" with
      | none => exact ⟨[], by simp [hloc]⟩
      | some loc => exact ⟨[], by simp [hloc]⟩
    · exact ⟨[], by simp [h2]⟩

/-- The replacement catalog of the staleness counterexample: its only
compute endpoint is `http://new`. -/
def c6NewCatalog : Json :=
  .obj [("access", .obj [
    ("token", .obj [("id", .str "tk"), ("tenant", .obj [("id", .str "tn")])]),
    ("serviceCatalog", .arr [
      .obj [("type", .str "compute"),
            ("endpoints", .arr [.obj [("publicURL", .str "http://new")]])]])])]

/-- A dispatcher whose cache already memoizes `compute → http://old`. -/
def c6World : World :=
  { st := { service_type := some "compute",
            services_url := [(some "compute", "http://old")] },
    script := fun _ => ⟨200, [], ""⟩, decode := fun _ => none }

/-- The dispatcher after a fresh authentication response carrying the new
catalog has been processed. -/
def c6After : World :=
  (extract_service_catalog c6World "http://ks" ⟨200, [], "B"⟩
    (some c6NewCatalog) true).2

/-- **C6** counterexample: replacing the service-catalog object does *not*
invalidate the per-service-type URL cache.  After processing a fresh
authentication whose new catalog resolves `compute` to `http://new`, both a
subsequent resolution and the management URL installed by the very
re-authentication still come from the stale memo (`http://old`). -/
theorem service_url_cache_stale_after_catalog_replacement :
    c6After.st.service_catalog = some (some c6NewCatalog) ∧
    url_for (some c6NewCatalog) none "publicURL" (some "compute") none =
      .ok "http://new" ∧
    (get_service_url c6After (some "compute")).1 = .ok "http://old" ∧
    c6After.st.management_url = some "http://old" :=
  ⟨rfl, rfl, rfl, rfl⟩

/-- **C6** as amended: a resolved URL is memoized per service type and
returned from the memo on every later call for the dispatcher's lifetime;
the memo is *never* invalidated — in particular a fresh authentication that
replaces the whole catalog object leaves every cached entry in place, so a
later resolution still answers from the stale memo rather than the new
catalog.  (A memo hit consults no catalog and leaves the world
untouched.) -/
theorem get_service_url_memoized_never_invalidated (w : World)
    (stype : Option String) (u : String)
    (h : lookupG w.st.services_url stype = some u) :
    get_service_url w stype = (.ok u, w) ∧
    ∀ url resp body et,
      lookupG (extract_service_catalog w url resp body et).2.st.services_url
        stype = some u := by
  constructor
  · unfold get_service_url
    rw [h]
  · intro url resp body et
    rcases extract_service_catalog_cache_grows w url resp body et with ⟨l', hl'⟩
    rw [hl']
    exact lookupG_append_some _ _ _ _ h

/-- Witness for **C6** (amended): on the concrete cached dispatcher the
memo answers `http://old` with the world unchanged, and the cache entry
survives the catalog replacement. -/
theorem get_service_url_memoized_never_invalidated_witness :
    get_service_url c6World (some "compute") = (.ok "http://old", c6World) ∧
    lookupG c6After.st.services_url (some "compute") = some "http://old" :=
  ⟨(get_service_url_memoized_never_invalidated c6World (some "compute")
      "http://old" rfl).1,
   (get_service_url_memoized_never_invalidated c6World (some "compute")
      "http://old" rfl).2 "http://ks" ⟨200, [], "B"⟩ (some c6NewCatalog) true⟩

/-! ## URL round-trip and regex-strip lemmas (towards C8) -/

theorem data_append (a b : String) : (a ++ b).data = a.data ++ b.data := rfl

theorem isPreList_self (pat r : List Char) : isPreList pat (pat ++ r) = true := by
  induction pat with
  | nil => rfl
  | cons c cs ih => simp [isPreList, ih]

theorem splitAtSub_colon (l r : List Char) (h : ':' ∉ l) :
    splitAtSub [':', '/', '/'] (l ++ ':' :: '/' :: '/' :: r) = some (l, r) := by
  induction l with
  | nil =>
    have hp : isPreList [':', '/', '/'] (':' :: '/' :: '/' :: r) = true :=
      isPreList_self [':', '/', '/'] r
    simp [splitAtSub, hp]
  | cons c cs ih =>
    have hc : (':' == c) = false := by
      simp only [beq_eq_false_iff_ne, ne_eq]
      intro e
      exact h (by rw [e]; exact List.mem_cons_self c cs)
    have ih' := ih (fun hx => h (List.mem_cons_of_mem _ hx))
    simp [splitAtSub, isPreList, hc, ih']

theorem takeWhile_append_of_all {p : Char → Bool} (l r : List Char)
    (h : ∀ c ∈ l, p c = true) :
    (l ++ r).takeWhile p = l ++ r.takeWhile p := by
  induction l with
  | nil => rfl
  | cons c cs ih =>
    simp [List.takeWhile_cons, h c (by simp),
      ih (fun x hx => h x (by simp [hx]))]

theorem dropWhile_append_of_all {p : Char → Bool} (l r : List Char)
    (h : ∀ c ∈ l, p c = true) :
    (l ++ r).dropWhile p = r.dropWhile p := by
  induction l with
  | nil => rfl
  | cons c cs ih =>
    simp [List.dropWhile_cons, h c (by simp),
      ih (fun x hx => h x (by simp [hx]))]

theorem splitFirst_append (l r : List Char) (ch : Char) (h : ch ∉ l) :
    splitFirst (l ++ ch :: r) ch = (l, r) := by
  have hp : ∀ c ∈ l, (c != ch) = true := by
    intro c hc
    simp only [bne_iff_ne, ne_eq]
    intro e
    exact h (e ▸ hc)
  unfold splitFirst
  rw [takeWhile_append_of_all l _ hp, dropWhile_append_of_all l _ hp]
  simp [List.takeWhile_cons, List.dropWhile_cons]

theorem splitFirst_of_not_mem (l : List Char) (ch : Char) (h : ch ∉ l) :
    splitFirst l ch = (l, []) := by
  have hp : ∀ c ∈ l, (c != ch) = true := by
    intro c hc
    simp only [bne_iff_ne, ne_eq]
    intro e
    exact h (e ▸ hc)
  unfold splitFirst
  rw [List.takeWhile_eq_self_iff.mpr hp, List.dropWhile_eq_nil_iff.mpr hp]
  rfl

theorem vtMatchAt_drop3 (l : List Char) (h : vtMatchAt l = true) :
    (l.drop 3).all isLowerAlnum = true := by
  unfold vtMatchAt at h
  split at h
  · rename_i d rest
    simp only [Bool.and_eq_true] at h
    exact h.2
  · exact absurd h (by simp)

theorem vtMatchAt_false_of_slash (l : List Char) (h : '/' ∈ l.drop 3) :
    vtMatchAt l = false := by
  by_contra hc
  have ht : vtMatchAt l = true := by
    cases hv : vtMatchAt l with
    | true => rfl
    | false => exact absurd hv hc
  have hall := vtMatchAt_drop3 l ht
  have := List.all_eq_true.mp hall '/' h
  simp [isLowerAlnum] at this

theorem stripVTL_strips (p0l tl : List Char) (d : Char)
    (hd1 : '1' ≤ d) (hd2 : d ≤ '9') (ht1 : tl ≠ [])
    (ht2 : ∀ c ∈ tl, isLowerAlnum c = true) :
    stripVTL (p0l ++ '/' :: 'v' :: d :: '/' :: tl) = p0l ++ ['/'] := by
  induction p0l with
  | nil =>
    have h1 : vtMatchAt ('/' :: 'v' :: d :: '/' :: tl) = false := rfl
    have h2 : vtMatchAt ('v' :: d :: '/' :: tl) = true := by
      simp [vtMatchAt, hd1, hd2, ht1, List.all_eq_true.mpr ht2,
        List.isEmpty_iff]
    simp [stripVTL, h1, h2]
  | cons c rest ih =>
    have hmem : '/' ∈ ((c :: rest) ++ '/' :: 'v' :: d :: '/' :: tl).drop 3 := by
      cases rest with
      | nil => simp
      | cons a rest' =>
        cases rest' with
        | nil => simp
        | cons b rest'' =>
          simp only [List.cons_append, List.drop_succ_cons, List.drop_zero,
            List.drop]
          refine List.mem_append.mpr (Or.inr ?_)
          simp
    have hfalse := vtMatchAt_false_of_slash _ hmem
    simp only [List.cons_append] at hfalse ⊢
    rw [stripVTL, if_neg (by simp [hfalse]), ih]

theorem mk_data (s : String) : String.mk s.data = s := rfl

theorem urlsplit_unsplit (s h P q f : String)
    (hs1 : s ≠ "") (hs2 : ∀ c ∈ s.data, c ≠ ':' ∧ c ≠ '#')
    (hh1 : h ≠ "") (hh2 : ∀ c ∈ h.data, c ≠ '/' ∧ c ≠ '?' ∧ c ≠ '#')
    (hP1 : P.data.headD ' ' = '/')
    (hP2 : ∀ c ∈ P.data, c ≠ '?' ∧ c ≠ '#')
    (hq : ∀ c ∈ q.data, c ≠ '#') :
    urlsplitS (urlunsplitS s h P q f) = (s, h, P, q, f) := by
  obtain ⟨P', hP'⟩ : ∃ P', P.data = '/' :: P' := by
    cases hc : P.data with
    | nil => rw [hc] at hP1; simp at hP1
    | cons c cs =>
      rw [hc] at hP1
      simp at hP1
      exact ⟨cs, by rw [hP1]⟩
  have hPpre : isPreList ['/'] P.data = true := by
    rw [hP']; simp [isPreList]
  have hbody : urlunsplitS s h P q f =
      (s ++ ":" ++ ("//" ++ h ++ P)) ++
        (if q ≠ "" then "?" ++ q else "") ++
        (if f ≠ "" then "#" ++ f else "") := by
    unfold urlunsplitS
    simp [hPpre, hh1, hs1]
    by_cases hq0 : q = "" <;> by_cases hf0 : f = "" <;>
      simp [hq0, hf0, String.append_assoc]
  have hcolon : ':' ∉ s.data := fun hx => (hs2 _ hx).1 rfl
  have hpredH : ∀ c ∈ h.data, ((c != '/') && (c != '?')) = true := by
    intro c hc
    simp only [Bool.and_eq_true, bne_iff_ne, ne_eq]
    exact ⟨(hh2 _ hc).1, (hh2 _ hc).2.1⟩
  have hnotQP : '?' ∉ P.data := fun hx => (hP2 _ hx).1 rfl
  have htwP : List.takeWhile (fun c => c != '/' && c != '?') P.data = [] := by
    rw [hP']
    simp [List.takeWhile_cons]
  have hdwP : List.dropWhile (fun c => c != '/' && c != '?') P.data = P.data := by
    rw [hP']
    simp [List.dropWhile_cons]
  by_cases hq0 : q = "" <;> by_cases hf0 : f = ""
  -- q = "", f = ""
  · have hd : (urlunsplitS s h P q f).data =
        s.data ++ ':' :: '/' :: '/' :: (h.data ++ P.data) := by
      rw [hbody]
      simp [hq0, hf0, data_append, List.append_assoc]
    have hnotHash : '#' ∉ s.data ++ ':' :: '/' :: '/' :: (h.data ++ P.data) := by
      intro hmem
      simp only [List.mem_append, List.mem_cons] at hmem
      rcases hmem with h1 | h1 | h1 | h1 | h1 | h1
      · exact (hs2 _ h1).2 rfl
      · exact absurd h1 (by decide)
      · exact absurd h1 (by decide)
      · exact absurd h1 (by decide)
      · exact (hh2 _ h1).2.2 rfl
      · exact (hP2 _ h1).2 rfl
    have hq' : '?' ∉ P.data := hnotQP
    unfold urlsplitS
    rw [hd]
    simp only [splitFirst_of_not_mem _ '#' hnotHash,
      splitAtSub_colon s.data (h.data ++ P.data) hcolon,
      takeWhile_append_of_all h.data P.data hpredH,
      dropWhile_append_of_all h.data P.data hpredH, htwP, hdwP,
      splitFirst_of_not_mem P.data '?' hq', List.append_nil]
    rw [hq0, hf0]
  -- q = "", f ≠ ""
  · have hd : (urlunsplitS s h P q f).data =
        (s.data ++ ':' :: '/' :: '/' :: (h.data ++ P.data)) ++ '#' :: f.data := by
      rw [hbody]
      simp [hq0, hf0, data_append, List.append_assoc]
    have hnotHash : '#' ∉ s.data ++ ':' :: '/' :: '/' :: (h.data ++ P.data) := by
      intro hmem
      simp only [List.mem_append, List.mem_cons] at hmem
      rcases hmem with h1 | h1 | h1 | h1 | h1 | h1
      · exact (hs2 _ h1).2 rfl
      · exact absurd h1 (by decide)
      · exact absurd h1 (by decide)
      · exact absurd h1 (by decide)
      · exact (hh2 _ h1).2.2 rfl
      · exact (hP2 _ h1).2 rfl
    unfold urlsplitS
    rw [hd]
    simp only [splitFirst_append _ _ '#' hnotHash,
      splitAtSub_colon s.data (h.data ++ P.data) hcolon,
      takeWhile_append_of_all h.data P.data hpredH,
      dropWhile_append_of_all h.data P.data hpredH, htwP, hdwP,
      splitFirst_of_not_mem P.data '?' hnotQP, List.append_nil]
    rw [hq0]
  -- q ≠ "", f = ""
  · have hd : (urlunsplitS s h P q f).data =
        s.data ++ ':' :: '/' :: '/' :: (h.data ++ (P.data ++ '?' :: q.data)) := by
      rw [hbody]
      simp [hq0, hf0, data_append, List.append_assoc]
    have hnotHash : '#' ∉ s.data ++ ':' :: '/' :: '/' ::
        (h.data ++ (P.data ++ '?' :: q.data)) := by
      intro hmem
      simp only [List.mem_append, List.mem_cons] at hmem
      rcases hmem with h1 | h1 | h1 | h1 | h1 | h1 | h1 | h1
      · exact (hs2 _ h1).2 rfl
      · exact absurd h1 (by decide)
      · exact absurd h1 (by decide)
      · exact absurd h1 (by decide)
      · exact (hh2 _ h1).2.2 rfl
      · exact (hP2 _ h1).2 rfl
      · exact absurd h1 (by decide)
      · exact hq _ h1 rfl
    have htw2 : List.takeWhile (fun c => c != '/' && c != '?')
        (P.data ++ '?' :: q.data) = [] := by
      rw [hP']; simp [List.takeWhile_cons]
    have hdw2 : List.dropWhile (fun c => c != '/' && c != '?')
        (P.data ++ '?' :: q.data) = P.data ++ '?' :: q.data := by
      rw [hP']; simp [List.dropWhile_cons]
    unfold urlsplitS
    rw [hd]
    simp only [splitFirst_of_not_mem _ '#' hnotHash,
      splitAtSub_colon s.data (h.data ++ (P.data ++ '?' :: q.data)) hcolon,
      takeWhile_append_of_all h.data (P.data ++ '?' :: q.data) hpredH,
      dropWhile_append_of_all h.data (P.data ++ '?' :: q.data) hpredH,
      htw2, hdw2, List.append_nil,
      splitFirst_append P.data q.data '?' hnotQP]
    rw [hf0]
  -- q ≠ "", f ≠ ""
  · have hd : (urlunsplitS s h P q f).data =
        (s.data ++ ':' :: '/' :: '/' :: (h.data ++ (P.data ++ '?' :: q.data)))
          ++ '#' :: f.data := by
      rw [hbody]
      simp [hq0, hf0, data_append, List.append_assoc]
    have hnotHash : '#' ∉ s.data ++ ':' :: '/' :: '/' ::
        (h.data ++ (P.data ++ '?' :: q.data)) := by
      intro hmem
      simp only [List.mem_append, List.mem_cons] at hmem
      rcases hmem with h1 | h1 | h1 | h1 | h1 | h1 | h1 | h1
      · exact (hs2 _ h1).2 rfl
      · exact absurd h1 (by decide)
      · exact absurd h1 (by decide)
      · exact absurd h1 (by decide)
      · exact (hh2 _ h1).2.2 rfl
      · exact (hP2 _ h1).2 rfl
      · exact absurd h1 (by decide)
      · exact hq _ h1 rfl
    have htw2 : List.takeWhile (fun c => c != '/' && c != '?')
        (P.data ++ '?' :: q.data) = [] := by
      rw [hP']; simp [List.takeWhile_cons]
    have hdw2 : List.dropWhile (fun c => c != '/' && c != '?')
        (P.data ++ '?' :: q.data) = P.data ++ '?' :: q.data := by
      rw [hP']; simp [List.dropWhile_cons]
    unfold urlsplitS
    rw [hd]
    simp only [splitFirst_append _ _ '#' hnotHash,
      splitAtSub_colon s.data (h.data ++ (P.data ++ '?' :: q.data)) hcolon,
      takeWhile_append_of_all h.data (P.data ++ '?' :: q.data) hpredH,
      dropWhile_append_of_all h.data (P.data ++ '?' :: q.data) hpredH,
      htw2, hdw2, List.append_nil,
      splitFirst_append P.data q.data '?' hnotQP]



theorem string_eq_of_data (a b : String) (h : a.data = b.data) : a = b :=
  congrArg String.mk h

theorem data_ne_nil_of_ne (t : String) (h : t ≠ "") : t.data ≠ [] := by
  intro hd
  exact h (string_eq_of_data _ _ (by simpa using hd))

/-- **C8**: an authenticated-wrapper call with a null path is sent to the
management URL with the trailing `/v<digit>/<tenant>` segment stripped from
its path — scheme and host unchanged, query and fragment dropped: for every
management URL assembled from a scheme, host, base path `p0`, version
digit, lowercase-alphanumeric tenant, query and fragment (with the
characters well-formed for a URL), the resolved probe URL is exactly
`scheme://host<p0>/`, the bare host root. -/
theorem null_path_probes_host_root
    (w : World) (s h q f p0 t : String) (d : Char)
    (hs1 : s ≠ "") (hs2 : ∀ c ∈ s.data, c ≠ ':' ∧ c ≠ '#')
    (hh1 : h ≠ "") (hh2 : ∀ c ∈ h.data, c ≠ '/' ∧ c ≠ '?' ∧ c ≠ '#')
    (hp0a : p0 = "" ∨ p0.data.headD ' ' = '/')
    (hp0b : ∀ c ∈ p0.data, c ≠ '?' ∧ c ≠ '#')
    (hd1 : '1' ≤ d) (hd2 : d ≤ '9')
    (ht1 : t ≠ "") (ht2 : ∀ c ∈ t.data, isLowerAlnum c = true)
    (hq : ∀ c ∈ q.data, c ≠ '#')
    (hm : w.st.management_url =
      some (urlunsplitS s h (p0 ++ "/v" ++ String.singleton d ++ "/" ++ t) q f)) :
    resolveRequestUrl w none = (.ok (s ++ "://" ++ h ++ (p0 ++ "/")), w) := by
  set P : String := p0 ++ "/v" ++ String.singleton d ++ "/" ++ t with hP
  have hPdata : P.data = p0.data ++ '/' :: 'v' :: d :: '/' :: t.data := by
    simp [hP, data_append, String.singleton, List.append_assoc]
  have hP1 : P.data.headD ' ' = '/' := by
    rw [hPdata]
    rcases hp0a with hp | hp
    · have h0 : p0.data = [] := by rw [hp]
      rw [h0]
      rfl
    · cases hc : p0.data with
      | nil => rfl
      | cons c cs =>
        rw [hc] at hp
        simp only [List.headD_cons] at hp
        rw [hp]
        rfl
  have hP2 : ∀ c ∈ P.data, c ≠ '?' ∧ c ≠ '#' := by
    intro c hc
    rw [hPdata] at hc
    simp only [List.mem_append, List.mem_cons] at hc
    rcases hc with h1 | h1 | h1 | h1 | h1 | h1
    · exact hp0b _ h1
    · subst h1; exact ⟨by decide, by decide⟩
    · subst h1; exact ⟨by decide, by decide⟩
    · subst h1
      constructor
      · intro e; rw [e] at hd2; exact absurd hd2 (by decide)
      · intro e; rw [e] at hd1; exact absurd hd1 (by decide)
    · subst h1; exact ⟨by decide, by decide⟩
    · constructor
      · intro e
        have h2 := ht2 _ h1
        rw [e] at h2
        exact absurd h2 (by decide)
      · intro e
        have h2 := ht2 _ h1
        rw [e] at h2
        exact absurd h2 (by decide)
  have hsplit := urlsplit_unsplit s h P q f hs1 hs2 hh1 hh2 hP1 hP2 hq
  have hstrip : stripVT P = p0 ++ "/" := by
    unfold stripVT
    rw [hPdata, stripVTL_strips p0.data t.data d hd1 hd2
      (data_ne_nil_of_ne t ht1) (fun c hc => ht2 c hc)]
    exact string_eq_of_data _ _ (by simp [data_append])
  have hfinal : urlunsplitS s h (p0 ++ "/") "" "" =
      s ++ "://" ++ h ++ (p0 ++ "/") := by
    have hpre : isPreList ['/'] (p0 ++ "/").data = true := by
      rcases hp0a with hp | hp
      · rw [hp]; rfl
      · cases hc : p0.data with
        | nil => simp [data_append, hc, isPreList]
        | cons c cs =>
          rw [hc] at hp
          simp only [List.headD_cons] at hp
          simp [data_append, hc, hp, isPreList]
    unfold urlunsplitS
    simp only [hpre, Bool.not_true, Bool.and_false, Bool.false_eq_true,
      if_false, hh1, hs1, ne_eq, not_false_eq_true, if_true, if_pos]
    refine string_eq_of_data _ _ ?_
    simp [data_append, List.append_assoc]
  unfold resolveRequestUrl
  rw [hm]
  simp only [Option.getD_some, hsplit, hstrip, hfinal]

/-- A dispatcher holding the management URL
`http://host:8774/v2/tenant5`. -/
def c8World : World :=
  { st := { management_url := some "http://host:8774/v2/tenant5" },
    script := fun _ => ⟨200, [], ""⟩, decode := fun _ => none }

/-- Witness for **C8**: the concrete management URL
`http://host:8774/v2/tenant5` is probed at `http://host:8774/`. -/
theorem null_path_probes_host_root_witness :
    resolveRequestUrl c8World none = (.ok "http://host:8774/", c8World) := by
  have h := null_path_probes_host_root c8World "http" "host:8774" "" "" ""
    "tenant5" '2' (by decide) (by decide) (by decide) (by decide)
    (Or.inl rfl) (by decide) (by decide) (by decide) (by decide) (by decide)
    (by decide) rfl
  exact h.trans (by rfl)

/-- Constructor arguments with an explicit bypass URL. -/
def c7Args (tok : Option String) : InitArgs :=
  { user := some "u", password := some "p", service_type := some "compute",
    bypass_url := some "http://override/v2/x", auth_token := tok }

/-- The dispatcher state those arguments construct. -/
def c7St (tok : Option String) : ClientState :=
  { user := some "u", password := some "p", service_type := some "compute",
    bypass_url := some "http://override/v2/x",
    management_url := some "http://override/v2/x", auth_token := tok }

def c7World (tok : Option String) : World :=
  { st := c7St tok, script := fun _ => ⟨200, [], ""⟩, decode := fun _ => none }

/-- **C7**: a dispatcher constructed with
`bypass_url = "http://override/v2/x"` sends `get("/servers")` to exactly
`http://override/v2/x/servers`, with zero consultations of the
service-catalog resolver; and, in general, the URL prefix is chosen with
priority bypass URL (the constructor installs it as the management URL and
its presence disables the catalog branch), then the catalog-resolved URL
for the configured service type, then the bare management URL. -/
theorem bypass_url_exact_request_and_priority (tok : Option String)
    (p : String) :
    initClient (c7Args tok) = .ok (c7St tok) ∧
    (c7St tok).management_url = some "http://override/v2/x" ∧
    (get 5 (c7World tok) "/servers").2.sent =
      [⟨"http://override/v2/x/servers", "GET",
        [("X-Auth-Token", tok), ("User-Agent", some "python-novaclient"),
         ("Accept", some "application/json")]⟩] ∧
    (get 5 (c7World tok) "/servers").2.resolves = 0 ∧
    (cs_request 5 (c7World tok) (some p) "GET").2.sent =
      [⟨"http://override/v2/x" ++ p, "GET",
        [("X-Auth-Token", tok), ("User-Agent", some "python-novaclient"),
         ("Accept", some "application/json")]⟩] ∧
    (∀ (w : World) (u : String), truthyS w.st.bypass_url = true →
      resolveRequestUrl w (some u) =
        (.ok ((w.st.management_url.getD "") ++ u), w)) ∧
    (∀ (w : World) (u : String), w.st.service_catalog.isSome = true →
      truthyS w.st.bypass_url = false →
      resolveRequestUrl w (some u) =
        (match get_service_url w w.st.service_type with
         | (.ok base, w') => (.ok (base ++ u), w')
         | (.error e, w') => (.error e, w'))) ∧
    (∀ (w : World) (u : String), w.st.service_catalog = none →
      resolveRequestUrl w (some u) =
        (.ok ((w.st.management_url.getD "") ++ u), w)) := by
  refine ⟨rfl, rfl, rfl, rfl, rfl, ?_, ?_, ?_⟩
  · intro w u hb
    unfold resolveRequestUrl
    rw [hb]
    simp
  · intro w u hc hb
    unfold resolveRequestUrl
    rw [hc, hb]
    simp
  · intro w u hc
    unfold resolveRequestUrl
    rw [hc]
    simp

/-- Witness for **C7**: with the bypass override in place the resolver maps
the relative path `/s` to the bypass-prefixed URL and the world is left
untouched. -/
theorem bypass_url_exact_request_and_priority_witness :
    resolveRequestUrl (c7World (some "t")) (some "/s") =
      (.ok "http://override/v2/x/s", c7World (some "t")) := by
  have h := (bypass_url_exact_request_and_priority (some "t") "/s").2.2.2.2.2.1
    (c7World (some "t")) "/s" rfl
  exact h.trans (by rfl)

/-- The log line produced for a request whose token is the one-character
string `"a"`. -/
def c9Log : String :=
  "curl -g -i \x27http://h\x27 -X GET -H \"X-Auth-Token: \x7bSHA1\x7d86f7e437faa5a7fce15d1ddcb9eaeaea377667b8\""

/-- **C9** counterexample: the debug log can contain the literal token value.
For the token `"a"` the redacted header value `{SHA1}86f7e4…` itself
contains the substring `"a"`, so the logged text — shown here in full —
contains the literal token even though the header value was replaced.  The
universal claim "the logged text never contains the literal token value" is
therefore false. -/
theorem log_contains_literal_short_token :
    http_log_req (fun _ => "") true "GET" "http://h"
      { headers := [("X-Auth-Token", some "a")] } = some c9Log ∧
    sha1hex "a" = "86f7e437faa5a7fce15d1ddcb9eaeaea377667b8" ∧
    hasSubstr c9Log "a" = true :=
  ⟨rfl, rfl, rfl⟩

/-- **C9** as amended: wherever an `X-Auth-Token` header is present, the
*value logged for that header* is the deterministic replacement
`"{SHA1}" ++ sha1-hex(token)` — a fixed function of the token, so two log
calls with the same token produce the identical replacement — or the
supplied static text when a non-empty one is given (the source guards with
`if text:`, Python truthiness, so a supplied *empty* replacement falls
through to the digest branch, which the third conjunct pins); the nested
`auth.passwordCredentials.password` body field is replaced the same way;
and the rendered log line shows the replacement in place of the token.
(The literal token may still appear as a substring elsewhere in the line,
e.g. inside the digest, which is what the counterexample exhibits.) -/
theorem log_redacts_auth_token_value :
    (∀ (kvs : List (String × Json)) (tok : String),
      lookupKV kvs "X-Auth-Token" = some (.str tok) →
      redact (.obj kvs) ["X-Auth-Token"] none =
        some (.obj (setKV kvs "X-Auth-Token"
          (.str ("\x7bSHA1\x7d" ++ sha1hex tok))))) ∧
    (∀ (kvs : List (String × Json)) (j : Json) (t : String),
      lookupKV kvs "X-Auth-Token" = some j → t ≠ "" →
      redact (.obj kvs) ["X-Auth-Token"] (some t) =
        some (.obj (setKV kvs "X-Auth-Token" (.str t)))) ∧
    (∀ (kvs : List (String × Json)) (tok : String),
      lookupKV kvs "X-Auth-Token" = some (.str tok) →
      redact (.obj kvs) ["X-Auth-Token"] (some "") =
        some (.obj (setKV kvs "X-Auth-Token"
          (.str ("\x7bSHA1\x7d" ++ sha1hex tok))))) ∧
    (∀ (inner : List (String × Json)) (pw : String),
      lookupKV inner "password" = some (.str pw) →
      redact (.obj [("auth", .obj [("passwordCredentials", .obj inner)])])
          ["auth", "passwordCredentials", "password"] none =
        some (.obj [("auth", .obj [("passwordCredentials",
          .obj (setKV inner "password"
            (.str ("\x7bSHA1\x7d" ++ sha1hex pw))))])])) ∧
    (∀ (dumps : Json → String) (tok : String),
      http_log_req dumps true "GET" "http://h"
        { headers := [("X-Auth-Token", some tok)] } =
        some ("curl -g -i \x27http://h\x27 -X GET" ++
          ((" -H \"X-Auth-Token: " ++ ("\x7bSHA1\x7d" ++ sha1hex tok))
            ++ "\""))) := by
  refine ⟨?_, ?_, ?_, ?_, ?_⟩
  · intro kvs tok h
    simp [redact, redactGo, h, redactText, truthyS]
  · intro kvs j t h ht
    simp [redact, redactGo, h, truthyS, ht]
  · intro kvs tok h
    simp [redact, redactGo, h, redactText, truthyS]
  · intro inner pw h
    simp only [lookupKV] at h
    simp [redact, redactGo, lookupKV, setKV, h, redactText, truthyS]
  · intro dumps tok
    rfl

/-- Witness for **C9** (amended): redacting the concrete header map with
token `"a"` yields exactly the SHA-1 replacement value. -/
theorem log_redacts_auth_token_value_witness :
    redact (.obj [("X-Auth-Token", .str "a")]) ["X-Auth-Token"] none =
      some (.obj [("X-Auth-Token",
        .str "\x7bSHA1\x7d86f7e437faa5a7fce15d1ddcb9eaeaea377667b8")]) := by
  have h := log_redacts_auth_token_value.1 [("X-Auth-Token", .str "a")] "a" rfl
  exact h.trans (by rfl)

/-- Constructor arguments whose bypass URL is the non-null string `"/"`. -/
def c10Args : InitArgs :=
  { user := some "u", password := some "p", bypass_url := some "/" }

/-- **C10** counterexample: a non-null `bypass_url` does *not* guarantee a
non-null `management_url` after construction.  With `bypass_url = "/"`
(non-null), stripping trailing slashes leaves the empty — falsy — string,
and the constructor's `management_url = bypass_url or None` sets the
management URL to null, not to the stripped value `""`. -/
theorem bypass_slash_constructs_null_management_url :
    (initClient c10Args).map
      (fun st => (st.management_url, st.bypass_url)) = .ok (none, some "") := by
  rfl

/-- The world of the amended C10 theorem: the constructed state in front of
a transport whose next answer is an empty 200. -/
def c10World (st : ClientState) (decode : String → Option Json) : World :=
  { st := st, script := fun _ => ⟨200, [], ""⟩, decode := decode }

/-- **C10** as amended: for every client constructed with a bypass URL that
is still non-empty (truthy) after trailing-slash stripping,
`management_url` is non-null immediately after construction and equals the
stripped bypass URL; consequently the authenticated request wrapper
performs no authentication before the first attempt — the one and only
network call is the request itself, sent to the bypass-prefixed URL with
whatever `auth_token` was supplied at construction, possibly null, in its
`X-Auth-Token` header. -/
theorem bypass_truthy_management_url_and_no_preauth
    (a : InitArgs) (st : ClientState) (b : String)
    (hsys : a.auth_system = "keystone")
    (hbp : a.bypass_url = some b)
    (hb : rstripSlash b ≠ "")
    (hpr : a.projectid = none)
    (hinit : initClient a = .ok st)
    (decode : String → Option Json) (p m : String) (fuel : Nat) :
    st.management_url = some (rstripSlash b) ∧
    st.auth_token = a.auth_token ∧
    cs_request fuel (c10World st decode) (some p) m =
      (.ok (⟨200, [], ""⟩, none),
       { c10World st decode with
           calls := 1
           sent := [⟨rstripSlash b ++ p, m,
                     [("X-Auth-Token", a.auth_token),
                      ("User-Agent", some "python-novaclient"),
                      ("Accept", some "application/json")]⟩] }) := by
  have hbne : b ≠ "" := fun e => hb (by rw [e]; rfl)
  unfold initClient at hinit
  rw [hsys] at hinit
  simp [hbp, truthyS, hbne, hb] at hinit
  subst hinit
  refine ⟨by simp, rfl, ?_⟩
  simp [cs_request, c10World, resolveRequestUrl, doRequest, classifyResponse,
    truthyS, hb, hpr, setKV, lookupKV, hbne]

/-- Concrete constructor arguments for the C10 witness. -/
def c10wArgs : InitArgs :=
  { user := some "u", password := some "p", bypass_url := some "http://b/",
    auth_token := some "tk" }

/-- The state those arguments construct. -/
def c10wSt : ClientState :=
  match initClient c10wArgs with
  | .ok st => st
  | .error _ => {}

/-- Witness for **C10** (amended): constructing with
`bypass_url = "http://b/"` yields `management_url = "http://b"`, and the
first `cs_request` makes exactly one network call. -/
theorem bypass_truthy_management_url_and_no_preauth_witness :
    c10wSt.management_url = some "http://b" ∧
    (cs_request 5 (c10World c10wSt (fun _ => none))
      (some "/servers") "GET").2.calls = 1 := by
  have h := bypass_truthy_management_url_and_no_preauth c10wArgs c10wSt
    "http://b/" rfl rfl (by decide) rfl rfl (fun _ => none) "/servers" "GET" 5
  exact ⟨h.1.trans (by rfl), by rw [h.2.2]⟩

end Nova
